import Mathlib

/-!
Verification development for the whatsapp-bulk-messenger-backend repository.

The repository contains two deployment variants of the same WebSocket session
server: `src/server.js` (the Render variant, whose in-flight-creation guard is
a `Set`) and `src/unnamed/part_000` (the Fly.io variant, whose guard is a
`Map` from session id to start timestamp).  Both variants are embedded below:
the `P`-prefixed definitions model `src/unnamed/part_000`, the `Sj`-prefixed
definitions model `src/server.js`.

Modelling conventions:
  * The single-threaded cooperative event loop is embedded as a step function
    over an explicit server state.  Handler code between two `await`
    suspension points is one atomic step.  The suspension points that matter
    to the claims are the `wppconnect.create` call (a pending entry in
    `inFlight`, resumed by a `createDone` event) and the
    `client.isConnected()` liveness probe in the part_000 variant (a pending
    entry in `probes`, resumed by a `probeDone` event).  `setTimeout`
    callbacks become pending entries (`timers`, `delayedGuardDel`) fired by
    their own events.
  * JavaScript `Map`s become association lists with `mapGet`/`mapSet`/`mapDel`.
  * The filesystem is the list of existing directory paths (`fsPaths`);
    `path.join(TOKENS_BASE_PATH, id)` is modelled as `"sessions/" ++ id`.
  * Fallible calls into the external automation engine (logout, close, send,
    rm, browser teardown) are driven by a boolean `Oracle` describing which
    calls succeed; a `false` entry means the call throws, and the embedding
    follows the source's try/catch structure exactly.
  * The engine's error-message strings are opaque; fixed stand-in strings are
    used for them.  Strings compared by the source (envelope texts such as
    "Session not initialized") are reproduced verbatim.
  * `generateSessionId` applies an abstract digest parameter `hash`
    (the sha256-hex digest is an external crypto collaborator) and then takes
    the 16-character prefix, as in `digest('hex').substring(0, 16)`.
  * `wppconnect` client handles are opaque naturals; the browser/page/process
    objects reached through a handle in `cleanupSession` are treated as
    present whenever the handle is.
-/

namespace WABackend

abbrev SessionId := String
abbrev ConnId := Nat
abbrev Time := Nat

/-- Association-list lookup, modelling JavaScript `Map.prototype.get`. -/
def mapGet {κ β : Type} [DecidableEq κ] : List (κ × β) → κ → Option β
  | [], _ => none
  | (k', v) :: t, k => if k' = k then some v else mapGet t k

/-- Association-list update, modelling `Map.prototype.set`. -/
def mapSet {κ β : Type} [DecidableEq κ] (m : List (κ × β)) (k : κ) (v : β) :
    List (κ × β) :=
  (k, v) :: m.filter (fun p => p.1 ≠ k)

/-- Association-list removal, modelling `Map.prototype.delete`. -/
def mapDel {κ β : Type} [DecidableEq κ] (m : List (κ × β)) (k : κ) :
    List (κ × β) :=
  m.filter (fun p => p.1 ≠ k)

/-- Remove the first occurrence of an element (consume a pending job). -/
def removeOne {α : Type} [DecidableEq α] (a : α) : List α → List α
  | [] => []
  | b :: t => if b = a then t else b :: removeOne a t

theorem mapGet_mapDel_self {κ β : Type} [DecidableEq κ]
    (m : List (κ × β)) (k : κ) : mapGet (mapDel m k) k = none := by
  induction m with
  | nil => rfl
  | cons p t ih =>
    by_cases h : p.1 = k
    · simpa [mapDel, h] using ih
    · cases p with
      | mk k' v => simp_all [mapDel, mapGet]

theorem mapDel_cons {κ β : Type} [DecidableEq κ] (a : κ) (v : β)
    (t : List (κ × β)) (k : κ) :
    mapDel ((a, v) :: t) k =
      if a = k then mapDel t k else (a, v) :: mapDel t k := by
  by_cases h : a = k <;> simp [mapDel, List.filter_cons, h]

theorem mapGet_mapDel_ne {κ β : Type} [DecidableEq κ]
    (m : List (κ × β)) (k k' : κ) (h : k' ≠ k) :
    mapGet (mapDel m k) k' = mapGet m k' := by
  induction m with
  | nil => rfl
  | cons p t ih =>
    cases p with
    | mk a v =>
      rw [mapDel_cons]
      by_cases ha : a = k
      · rw [if_pos ha, ih]
        subst ha
        have hne : a ≠ k' := fun hh => h hh.symm
        simp [mapGet, hne]
      · rw [if_neg ha]
        by_cases hb : a = k'
        · simp [mapGet, hb]
        · simp [mapGet, hb, ih]

theorem mapGet_mapSet_self {κ β : Type} [DecidableEq κ]
    (m : List (κ × β)) (k : κ) (v : β) : mapGet (mapSet m k v) k = some v := by
  simp [mapSet, mapGet]

theorem mem_mapDel {κ β : Type} [DecidableEq κ]
    {m : List (κ × β)} {k : κ} {p : κ × β} (h : p ∈ mapDel m k) :
    p ∈ m ∧ p.1 ≠ k := by
  simp only [mapDel, List.mem_filter] at h
  exact ⟨h.1, by simpa using h.2⟩

/-- Does `need` begin `hay`?  Helper for the substring test. -/
def listStarts : List Char → List Char → Bool
  | _, [] => true
  | [], _ :: _ => false
  | a :: as, b :: bs => a = b && listStarts as bs

/-- Does `hay` contain `need` as a contiguous sublist? -/
def hasSub (need : List Char) : List Char → Bool
  | [] => listStarts [] need
  | c :: t => listStarts (c :: t) need || hasSub need t

/-- Models JavaScript `s.includes(sub)` (substring containment). -/
def strIncludes (s sub : String) : Bool :=
  hasSub sub.toList s.toList

/-- `generateSessionId` (both variants): sha256-hex digest of the fingerprint,
truncated to its first 16 characters.  The digest itself is an external
crypto collaborator and is passed in as the deterministic `hash` parameter;
`substring(0, 16)` is the 16-character prefix. -/
def generateSessionId (hash : String → String) (fingerprint : String) :
    String :=
  String.mk ((hash fingerprint).toList.take 16)

/-- One entry of `activeSessions`:
`{ client, ws, sessionPath, lastActivity, fingerprint }`. -/
structure SessionRec where
  client : Option Nat
  ws : ConnId
  sessionPath : Option String
  lastActivity : Time
  fingerprint : String
deriving DecidableEq, Repr

/-- The outbound JSON envelopes the server writes to a WebSocket. -/
inductive Envelope where
  | status (message : String)
  | qr (qr : String)
  | ready (message : String)
  | sessionCreated
  | sessionRestored
  | messageSent (tgt : String)
  | messageError (error tgt : String)
  | loggedOut
  | logoutError (error : String)
  | error (message : String)
deriving DecidableEq, Repr

/-- Observable side effects of teardown and send paths, in execution order. -/
inductive Effect where
  | closePages
  | closeBrowser
  | killProc
  | closeClient
  | rmProfile
  | rmPath
  | regDelete
  | guardDelete
  | sendText (target body : String)
deriving DecidableEq, Repr

/-- Success/failure outcomes of the fallible external calls; `false` means the
call throws.  The embedding routes each throw through the source's
try/catch structure. -/
structure Oracle where
  logoutOk : Bool
  closeOk : Bool
  rmOk : Bool
  sendOk : Bool
  browserCloseOk : Bool
  procKillOk : Bool
  rmProfileOk : Bool
  rmPathOk : Bool
deriving DecidableEq, Repr

/-- All external calls succeed. -/
def oAll : Oracle :=
  { logoutOk := true, closeOk := true, rmOk := true, sendOk := true,
    browserCloseOk := true, procKillOk := true, rmProfileOk := true,
    rmPathOk := true }

/-!
## The part_000 (Fly.io) variant: `src/unnamed/part_000`
-/

/-- Server state for the part_000 variant.
  * `active` — the `activeSessions` map;
  * `guard` — the `initializingSessions` map (id to start timestamp);
  * `conns` — readyState of each WebSocket (`true` iff OPEN);
  * `connSession` — each connection's handler-local `sessionId` variable;
  * `inFlight` — pending `wppconnect.create` calls (conn, id);
  * `probes` — pending `client.isConnected()` probes (conn, id, fingerprint);
  * `timers` — pending 10-second reconnect-grace timers from the close
    handler;
  * `delayedGuardDel` — pending 3-second post-logout guard deletions;
  * `fsPaths` — existing directories; `fx` — effect trace; `out` — the
    envelopes written so far, `now` — `Date.now()`, `nextClient` — supply of
    fresh client handles. -/
structure PSt where
  active : List (SessionId × SessionRec)
  guard : List (SessionId × Time)
  conns : List (ConnId × Bool)
  connSession : List (ConnId × SessionId)
  inFlight : List (ConnId × SessionId)
  probes : List (ConnId × SessionId × String)
  timers : List SessionId
  delayedGuardDel : List SessionId
  fsPaths : List String
  fx : List Effect
  out : List (ConnId × Envelope)
  now : Time
  nextClient : Nat
deriving DecidableEq, Repr

/-- The empty start state (`startServer` clears both maps). -/
def pSt0 : PSt :=
  { active := [], guard := [], conns := [], connSession := [], inFlight := [],
    probes := [], timers := [], delayedGuardDel := [], fsPaths := [], fx := [],
    out := [], now := 0, nextClient := 0 }

/-- Is connection `c` in readyState OPEN? -/
def connOpen (st : PSt) (c : ConnId) : Bool :=
  match mapGet st.conns c with
  | some b => b
  | none => false

/-- `sendToSession(sessionId, data)`: deliver only when the record exists and
its attached WebSocket is OPEN. -/
def sendToSessionP (st : PSt) (S : SessionId) (env : Envelope) : PSt :=
  match mapGet st.active S with
  | some s => if connOpen st s.ws then
      { st with out := st.out ++ [(s.ws, env)] } else st
  | none => st

/-- Effects of the defensive client/browser teardown block at the top of
`cleanupSession` (part_000): close all pages (each individually caught),
close the browser, force-kill its process, then `client.close()`.  A throw
from one call skips the rest of the block (they share one try) and is caught
by the block's catch. -/
def closeFx (client : Option Nat) (o : Oracle) : List Effect :=
  match client with
  | none => []
  | some _ =>
    [Effect.closePages, Effect.closeBrowser] ++
      (if o.browserCloseOk then
        Effect.killProc :: (if o.procKillOk then [Effect.closeClient] else [])
      else [])

/-- Storage-path removal step of `cleanupSession` (part_000): when the path
exists, remove the `browser-profile` subdirectory first, then the whole
directory; both `rmSync` calls share one try, so a throw from the profile
removal skips the directory removal, and either throw is caught.  Returns the
new filesystem and the attempted removals. -/
def rmStep (fs : List String) (sp : Option String) (o : Oracle) :
    List String × List Effect :=
  match sp with
  | none => (fs, [])
  | some p =>
    if p ∈ fs then
      let prof := p ++ "/browser-profile"
      if prof ∈ fs then
        if o.rmProfileOk then
          let fs := fs.filter (fun q => q ≠ prof)
          if o.rmPathOk then
            (fs.filter (fun q => q ≠ p), [Effect.rmProfile, Effect.rmPath])
          else (fs, [Effect.rmProfile, Effect.rmPath])
        else (fs, [Effect.rmProfile])
      else
        if o.rmPathOk then
          (fs.filter (fun q => q ≠ p), [Effect.rmPath])
        else (fs, [Effect.rmPath])
    else (fs, [])

/-- `cleanupSession(sessionId)` (part_000 lines 179-242): no-op without a
record; otherwise defensively tear down the client, remove the storage path,
then delete the registry entry and the init-guard entry.  Every step is
wrapped so a throw cannot stop the later steps.  Returns the new state and
the effect trace. -/
def cleanupCore (st : PSt) (S : SessionId) (o : Oracle) :
    PSt × List Effect :=
  match mapGet st.active S with
  | none => (st, [])
  | some s =>
    let r := rmStep st.fsPaths s.sessionPath o
    ({ st with fsPaths := r.1, active := mapDel st.active S,
               guard := mapDel st.guard S },
     closeFx s.client o ++ r.2 ++ [Effect.regDelete, Effect.guardDelete])

/-- `cleanupSession` as a state step, recording its effects in the trace. -/
def cleanupRun (st : PSt) (S : SessionId) (o : Oracle) : PSt :=
  let r := cleanupCore st S o
  { r.1 with fx := r.1.fx ++ r.2 }

/-- `sendMessage(sessionId, phone, message)` (part_000 lines 428-457):
requires a record with a client; refreshes `lastActivity` before the send;
formats the target and calls `client.sendText`.  Returns the new state and
`some errorMessage` when the function throws. -/
def sendMessageCore (st : PSt) (S : SessionId) (phone text : String)
    (o : Oracle) : PSt × Option String :=
  match mapGet st.active S with
  | none => (st, some "Session not found or WhatsApp not connected")
  | some s =>
    match s.client with
    | none => (st, some "Session not found or WhatsApp not connected")
    | some _ =>
      let st := { st with
        active := mapSet st.active S { s with lastActivity := st.now } }
      let tgt := if strIncludes phone "@c.us" then phone
                 else phone ++ "@c.us"
      let st := { st with fx := st.fx ++ [Effect.sendText tgt text] }
      if o.sendOk then (st, none) else (st, some "send failed")

/-- `logoutSession(sessionId)` (part_000 lines 460-489, identical in
server.js lines 338-367): throws without a record; otherwise
`client.logout()` then `client.close()` (a throw from either propagates out
of the whole function before any local state is touched), then removes the
storage path (a throw likewise propagates), then deletes the registry entry
and the guard entry.  Returns the new state and `some errorMessage` on a
throw. -/
def logoutCore (st : PSt) (S : SessionId) (o : Oracle) :
    PSt × Option String :=
  match mapGet st.active S with
  | none => (st, some "Session not found")
  | some s =>
    let clientErr : Option String :=
      match s.client with
      | none => none
      | some _ =>
        if o.logoutOk = false then some "logout failed"
        else if o.closeOk = false then some "close failed"
        else none
    match clientErr with
    | some e => (st, some e)
    | none =>
      let finish : PSt → PSt × Option String := fun st' =>
        ({ st' with active := mapDel st'.active S,
                    guard := mapDel st'.guard S }, none)
      match s.sessionPath with
      | some p =>
        if p ∈ st.fsPaths then
          if o.rmOk then
            finish { st with fsPaths := st.fsPaths.filter (fun q => q ≠ p) }
          else (st, some "rm failed")
        else finish st
      | none => finish st

/-- The `statusFind` hook of the part_000 variant (lines 347-366): always
push a `status` envelope; on `inChat` or `qrReadSuccess` additionally delete
the init-guard entry and push a `ready` envelope. -/
def statusFindP (st : PSt) (S : SessionId) (statusSession : String) : PSt :=
  let st := sendToSessionP st S (.status ("Status: " ++ statusSession))
  if statusSession = "inChat" ∨ statusSession = "qrReadSuccess" then
    let st := { st with guard := mapDel st.guard S }
    sendToSessionP st S (.ready "WhatsApp connected successfully!")
  else st

/-- The `catchQR` hook of the part_000 variant (lines 315-345): push a `qr`
envelope to the owning connection when it is OPEN; when the owning connection
is confirmed CLOSED, delete the guard entry and force a cleanup. -/
def catchQRP (st : PSt) (S : SessionId) (qrData : String) (o : Oracle) :
    PSt :=
  match mapGet st.active S with
  | some s =>
    if connOpen st s.ws then { st with out := st.out ++ [(s.ws, .qr qrData)] }
    else
      let st := { st with guard := mapDel st.guard S }
      cleanupRun st S o
  | none => st

/-- Synchronous tail of `initializeWhatsAppSession` (part_000) after the
guard check: record the attempt in the guard with its start time, create the
session directory, push an "Initializing" status, close any existing client
(unreachable from the only call site, which has just written a placeholder
with `client: null`; modelled without a suspension), remove a leftover
browser profile, then suspend at `wppconnect.create` — a pending entry in
`inFlight` resumed by a `createDone` event. -/
def startTail (st : PSt) (c : ConnId) (S : SessionId) (o : Oracle) : PSt :=
  let st := { st with guard := mapSet st.guard S st.now }
  let p := "sessions/" ++ S
  let st := if p ∈ st.fsPaths then st
            else { st with fsPaths := st.fsPaths ++ [p] }
  let st := sendToSessionP st S (.status "Initializing WhatsApp client...")
  let st :=
    match mapGet st.active S with
    | some s =>
      match s.client with
      | some _ => { st with fx := st.fx ++ [Effect.closeClient] }
      | none => st
    | none => st
  let prof := p ++ "/browser-profile"
  let st := if prof ∈ st.fsPaths then
      (if o.rmProfileOk then
        { st with fsPaths := st.fsPaths.filter (fun q => q ≠ prof) }
      else st)
    else st
  { st with inFlight := st.inFlight ++ [(c, S)] }

/-- Head of `initializeWhatsAppSession` (part_000 lines 253-269, the
init-guard check): a fresh (< 120 s) in-flight attempt returns null — the
caller then deletes the placeholder record and the guard entry; a stale one
is reclaimed (guard entry deleted, full cleanup) before proceeding. -/
def startWhatsAppSession (st : PSt) (c : ConnId) (S : SessionId)
    (o : Oracle) : PSt :=
  match mapGet st.guard S with
  | some t =>
    if st.now - t < 120000 then
      { st with active := mapDel st.active S, guard := mapDel st.guard S }
    else
      let st := { st with guard := mapDel st.guard S }
      let st := cleanupRun st S o
      startTail st c S o
  | none => startTail st c S o

/-- The `initializingSessions` branch of the `init` message handler plus the
new-session path (part_000 lines 552-625): with a guard entry present, an
init from a different connection re-points the record to the new connection
and deletes the guard entry (reconnect), otherwise the caller is told to
wait; with no guard entry, a placeholder record is written and the creation
is started. -/
def initGuardCheck (st : PSt) (c : ConnId) (S : SessionId) (fp : String)
    (o : Oracle) : PSt :=
  match mapGet st.guard S with
  | some _ =>
    match mapGet st.active S with
    | some s =>
      if s.ws ≠ c then
        let st := if connOpen st s.ws then
            { st with conns := mapSet st.conns s.ws false } else st
        let st := { st with
          active := mapSet st.active S
            { s with ws := c, lastActivity := st.now } }
        let st := { st with guard := mapDel st.guard S }
        { st with out := st.out ++
            [(c, .status "Reconnected to existing session")] }
      else
        { st with out := st.out ++
            [(c, .error "This session is already being initialized. Please wait.")] }
    | none =>
      { st with out := st.out ++
          [(c, .error "This session is already being initialized. Please wait.")] }
  | none =>
    let st := { st with
      active := mapSet st.active S
        { client := none, ws := c, sessionPath := none,
          lastActivity := st.now, fingerprint := fp } }
    startWhatsAppSession st c S o

/-- The `init` branch of the message handler (part_000 lines 501-626):
resolve the id, bind it to the connection, and either suspend at the
liveness probe (record with a client), or fall through to the guard check /
creation path. -/
def pInitHandler (hash : String → String) (st : PSt) (c : ConnId)
    (fp : String) (o : Oracle) : PSt :=
  let S := generateSessionId hash fp
  let st := { st with connSession := mapSet st.connSession c S }
  match mapGet st.active S with
  | some s =>
    match s.client with
    | some _ => { st with probes := st.probes ++ [(c, S, fp)] }
    | none => initGuardCheck st c S fp o
  | none => initGuardCheck st c S fp o

/-- Resumption of the `await session.client.isConnected()` probe (part_000
lines 513-549).  Alive: detach the previous connection, attach the prober,
refresh activity, emit `session-restored` then `ready`.  Dead (or the probe
threw): full cleanup, then fall through to the guard check / creation
path. -/
def probeDoneP (st : PSt) (c : ConnId) (S : SessionId) (fp : String)
    (alive : Bool) (o : Oracle) : PSt :=
  if (c, S, fp) ∈ st.probes then
    let st := { st with probes := removeOne (c, S, fp) st.probes }
    if alive then
      match mapGet st.active S with
      | some s =>
        let st := if s.ws ≠ c ∧ connOpen st s.ws then
            { st with conns := mapSet st.conns s.ws false } else st
        let st := { st with
          active := mapSet st.active S
            { s with ws := c, lastActivity := st.now } }
        { st with out := st.out ++
            [(c, .sessionRestored), (c, .ready "WhatsApp is already connected")] }
      | none =>
        { st with out := st.out ++
            [(c, .sessionRestored), (c, .ready "WhatsApp is already connected")] }
    else
      let st := cleanupRun st S o
      initGuardCheck st c S fp o
  else st

/-- Resumption of the `await wppconnect.create(...)` call.  Success: the
guard entry is deleted, the awaiting handler fills in the record's `client`
and `sessionPath` (when the record still exists) and sends
`session-created` to its own connection.  Failure: the guard entry is
deleted, an `error` envelope goes to the record's current connection, the
rethrow makes the awaiting handler delete the record and the guard entry and
send `error` to its own connection. -/
def createDoneP (st : PSt) (c : ConnId) (S : SessionId) (ok : Bool) : PSt :=
  if (c, S) ∈ st.inFlight then
    let st := { st with inFlight := removeOne (c, S) st.inFlight }
    if ok then
      let st := { st with guard := mapDel st.guard S }
      let k := st.nextClient
      let st := { st with nextClient := k + 1 }
      let st :=
        match mapGet st.active S with
        | some s => { st with
            active := mapSet st.active S
              { s with client := some k,
                       sessionPath := some ("sessions/" ++ S) } }
        | none => st
      { st with out := st.out ++ [(c, .sessionCreated)] }
    else
      let st := { st with guard := mapDel st.guard S }
      let st := sendToSessionP st S
        (.error "Failed to initialize: create failed")
      let st := { st with active := mapDel st.active S,
                          guard := mapDel st.guard S }
      { st with out := st.out ++
          [(c, .error "Initialization failed: create failed")] }
  else st

/-- The `send-message` branch of the message handler (part_000 lines
628-654): without a bound session id reply `error "Session not
initialized"`; otherwise call `sendMessage` and reply `message-sent` or
`message-error`. -/
def sendBranch (st : PSt) (c : ConnId) (phone text : String) (o : Oracle) :
    PSt :=
  match mapGet st.connSession c with
  | none => { st with out := st.out ++ [(c, .error "Session not initialized")] }
  | some S =>
    let r := sendMessageCore st S phone text o
    match r.2 with
    | none => { r.1 with out := r.1.out ++ [(c, .messageSent phone)] }
    | some e => { r.1 with out := r.1.out ++ [(c, .messageError e phone)] }

/-- The `logout` branch of the message handler (part_000 lines 656-684):
without a bound session id reply `error "Session not initialized"`;
otherwise call `logoutSession`, reply `logged-out` and schedule the delayed
guard deletion on success, reply `logout-error` on a throw. -/
def logoutBranch (st : PSt) (c : ConnId) (o : Oracle) : PSt :=
  match mapGet st.connSession c with
  | none => { st with out := st.out ++ [(c, .error "Session not initialized")] }
  | some S =>
    let r := logoutCore st S o
    match r.2 with
    | none => { r.1 with out := r.1.out ++ [(c, .loggedOut)],
                         delayedGuardDel := r.1.delayedGuardDel ++ [S] }
    | some e => { r.1 with out := r.1.out ++ [(c, .logoutError e)] }

/-- An inbound WebSocket frame: either JSON that fails to parse, or a parsed
object carrying a `type` tag and the fields the handlers read. -/
inductive Inbound where
  | malformed (err : String)
  | parsed (ty fingerprint phone message : String)
deriving DecidableEq, Repr

/-- The `ws.on('message')` handler (part_000 lines 497-693): a JSON parse
failure is caught and echoed as an `error` envelope; a parsed envelope is
dispatched on its `type` through `if`/`else if` chains with **no** final
`else`. -/
def wsMessageP (hash : String → String) (st : PSt) (c : ConnId)
    (m : Inbound) (o : Oracle) : PSt :=
  match m with
  | .malformed e => { st with out := st.out ++ [(c, .error e)] }
  | .parsed ty fp phone text =>
    if ty = "init" then pInitHandler hash st c fp o
    else if ty = "send-message" then sendBranch st c phone text o
    else if ty = "logout" then logoutBranch st c o
    else st

/-- The `ws.on('close')` handler of the part_000 variant (lines 696-724):
with a bound session whose record has a client, schedule the 10-second
reconnect-grace timer; otherwise delete both the guard entry and the
record. -/
def pClose (st : PSt) (c : ConnId) : PSt :=
  let stc := { st with conns := mapSet st.conns c false }
  match mapGet st.connSession c with
  | none => stc
  | some S =>
    match mapGet st.active S with
    | some s =>
      match s.client with
      | some _ => { stc with timers := stc.timers ++ [S] }
      | none => { stc with guard := mapDel stc.guard S,
                           active := mapDel stc.active S }
    | none => { stc with guard := mapDel stc.guard S,
                         active := mapDel stc.active S }

/-- Firing of the close handler's 10-second grace timer: if a connection
re-attached and is OPEN, keep the session; otherwise full cleanup. -/
def graceFireP (st : PSt) (S : SessionId) (o : Oracle) : PSt :=
  if S ∈ st.timers then
    let st := { st with timers := removeOne S st.timers }
    match mapGet st.active S with
    | some s => if connOpen st s.ws then st else cleanupRun st S o
    | none => cleanupRun st S o
  else st

/-- Firing of the 3-second post-logout guard deletion. -/
def guardDelFireP (st : PSt) (S : SessionId) : PSt :=
  if S ∈ st.delayedGuardDel then
    { st with delayedGuardDel := removeOne S st.delayedGuardDel,
              guard := mapDel st.guard S }
  else st

/-- Events of the cooperative event loop for the part_000 variant. -/
inductive PEv where
  | connect (c : ConnId)
  | inbound (c : ConnId) (m : Inbound) (o : Oracle)
  | createDone (c : ConnId) (S : SessionId) (ok : Bool)
  | probeDone (c : ConnId) (S : SessionId) (fp : String) (alive : Bool)
      (o : Oracle)
  | wsClose (c : ConnId)
  | graceFire (S : SessionId) (o : Oracle)
  | guardDelFire (S : SessionId)
  | tick (dt : Nat)
deriving Repr

/-- One atomic step of the part_000 event loop. -/
def pStep (hash : String → String) (st : PSt) : PEv → PSt
  | .connect c => { st with conns := mapSet st.conns c true }
  | .inbound c m o => wsMessageP hash st c m o
  | .createDone c S ok => createDoneP st c S ok
  | .probeDone c S fp alive o => probeDoneP st c S fp alive o
  | .wsClose c => pClose st c
  | .graceFire S o => graceFireP st S o
  | .guardDelFire S => guardDelFireP st S
  | .tick dt => { st with now := st.now + dt }

/-- Run the part_000 server from the empty start state. -/
def pRun (hash : String → String) (evs : List PEv) : PSt :=
  evs.foldl (pStep hash) pSt0

/-!
## The Render variant: `src/server.js`

Its `initializingSessions` guard is a `Set` (no timestamps), its restore
branch has no liveness probe, its `statusFind` hook never touches the guard,
and its `ws.on('close')` handler only deletes the guard entry.  Only the
handlers the claims are about are embedded.
-/

/-- Server state for the server.js variant; the guard is a set of ids. -/
structure SjSt where
  active : List (SessionId × SessionRec)
  guard : List SessionId
  conns : List (ConnId × Bool)
  connSession : List (ConnId × SessionId)
  inFlight : List (ConnId × SessionId)
  fsPaths : List String
  fx : List Effect
  out : List (ConnId × Envelope)
  now : Time
deriving DecidableEq, Repr

/-- The empty start state of the server.js variant. -/
def sjSt0 : SjSt :=
  { active := [], guard := [], conns := [], connSession := [], inFlight := [],
    fsPaths := [], fx := [], out := [], now := 0 }

/-- Is connection `c` OPEN (server.js variant)? -/
def sjConnOpen (st : SjSt) (c : ConnId) : Bool :=
  match mapGet st.conns c with
  | some b => b
  | none => false

/-- `sendToSession` of the server.js variant (lines 167-173). -/
def sjSendToSession (st : SjSt) (S : SessionId) (env : Envelope) : SjSt :=
  match mapGet st.active S with
  | some s => if sjConnOpen st s.ws then
      { st with out := st.out ++ [(s.ws, env)] } else st
  | none => st

/-- The `statusFind` hook of the server.js variant (lines 240-255): always
push a `status` envelope; on `inChat` or `qrReadSuccess` additionally push a
`ready` envelope.  It does not touch the init guard. -/
def statusFindSj (st : SjSt) (S : SessionId) (statusSession : String) :
    SjSt :=
  let st := sjSendToSession st S (.status ("Status: " ++ statusSession))
  if statusSession = "inChat" ∨ statusSession = "qrReadSuccess" then
    sjSendToSession st S (.ready "WhatsApp connected successfully!")
  else st

/-- Synchronous prefix of `initializeWhatsAppSession` (server.js lines
176-287): a guard hit returns null, making the awaiting handler delete the
placeholder record and the guard entry; otherwise record the attempt, create
the session directory, push an "Initializing" status, close any existing
client (unreachable from the only call site, modelled without a suspension),
then suspend at `wppconnect.create`. -/
def sjStart (st : SjSt) (c : ConnId) (S : SessionId) : SjSt :=
  if S ∈ st.guard then
    { st with active := mapDel st.active S,
              guard := st.guard.filter (fun x => x ≠ S) }
  else
    let st := { st with guard := st.guard ++ [S] }
    let p := "sessions/" ++ S
    let st := if p ∈ st.fsPaths then st
              else { st with fsPaths := st.fsPaths ++ [p] }
    let st := sjSendToSession st S (.status "Initializing WhatsApp client...")
    let st :=
      match mapGet st.active S with
      | some s =>
        match s.client with
        | some _ => { st with fx := st.fx ++ [Effect.closeClient] }
        | none => st
      | none => st
    { st with inFlight := st.inFlight ++ [(c, S)] }

/-- The `initializingSessions` branch plus the new-session path of the
server.js `init` handler (lines 413-487). -/
def sjGuardCheck (st : SjSt) (c : ConnId) (S : SessionId) (fp : String) :
    SjSt :=
  if S ∈ st.guard then
    match mapGet st.active S with
    | some s =>
      if s.ws ≠ c then
        let st := if sjConnOpen st s.ws then
            { st with conns := mapSet st.conns s.ws false } else st
        let st := { st with
          active := mapSet st.active S
            { s with ws := c, lastActivity := st.now } }
        let st := { st with guard := st.guard.filter (fun x => x ≠ S) }
        { st with out := st.out ++
            [(c, .status "Reconnected to existing session")] }
      else
        { st with out := st.out ++
            [(c, .error "This session is already being initialized. Please wait.")] }
    | none =>
      { st with out := st.out ++
          [(c, .error "This session is already being initialized. Please wait.")] }
  else
    let st := { st with
      active := mapSet st.active S
        { client := none, ws := c, sessionPath := none,
          lastActivity := st.now, fingerprint := fp } }
    sjStart st c S

/-- The `init` branch of the server.js message handler (lines 379-487): the
restore path is synchronous (no liveness probe) — with a record holding a
client, detach the old connection, attach the new one, emit
`session-restored` then `ready`. -/
def sjInitHandler (hash : String → String) (st : SjSt) (c : ConnId)
    (fp : String) : SjSt :=
  let S := generateSessionId hash fp
  let st := { st with connSession := mapSet st.connSession c S }
  match mapGet st.active S with
  | some s =>
    match s.client with
    | some _ =>
      let st := if s.ws ≠ c ∧ sjConnOpen st s.ws then
          { st with conns := mapSet st.conns s.ws false } else st
      let st := { st with
        active := mapSet st.active S
          { s with ws := c, lastActivity := st.now } }
      { st with out := st.out ++
          [(c, .sessionRestored), (c, .ready "WhatsApp is already connected")] }
    | none => sjGuardCheck st c S fp
  | none => sjGuardCheck st c S fp

/-- The `ws.on('close')` handler of the server.js variant (lines 556-564):
it only removes the session id from `initializingSessions`; the
`activeSessions` record is left untouched. -/
def sjClose (st : SjSt) (c : ConnId) : SjSt :=
  let st := { st with conns := mapSet st.conns c false }
  match mapGet st.connSession c with
  | none => st
  | some S => { st with guard := st.guard.filter (fun x => x ≠ S) }

/-- Events of the server.js event loop (only those the claims need). -/
inductive SjEv where
  | connect (c : ConnId)
  | initMsg (c : ConnId) (fp : String)
  | wsClose (c : ConnId)
deriving Repr

/-- One atomic step of the server.js event loop. -/
def sjStep (hash : String → String) (st : SjSt) : SjEv → SjSt
  | .connect c => { st with conns := mapSet st.conns c true }
  | .initMsg c fp => sjInitHandler hash st c fp
  | .wsClose c => sjClose st c

/-- Run the server.js variant from the empty start state. -/
def sjRun (hash : String → String) (evs : List SjEv) : SjSt :=
  evs.foldl (sjStep hash) sjSt0

/-!
## The registry invariant (spec section 3)

"A record with no `client` and no pending initialization is invalid and must
not persist in the registry."
-/

/-- The claimed invariant for the part_000 variant: every registry record
without a client has a pending guard entry. -/
def pInvariantB (st : PSt) : Bool :=
  st.active.all (fun pr => pr.2.client.isSome || (mapGet st.guard pr.1).isSome)

/-- The claimed invariant for the server.js variant. -/
def sjInvariantB (st : SjSt) : Bool :=
  st.active.all (fun pr => pr.2.client.isSome || decide (pr.1 ∈ st.guard))

/-!
## Concrete fixtures used by counterexamples and witnesses
-/

/-- An established session record: client handle 0, attached to connection 1,
storage under `sessions/S`. -/
def recW : SessionRec :=
  { client := some 0, ws := 1, sessionPath := some "sessions/S",
    lastActivity := 0, fingerprint := "S" }

/-- A placeholder record as written by the `init` handler before creation
completes: no client, no storage path. -/
def recP : SessionRec :=
  { client := none, ws := 1, sessionPath := none, lastActivity := 0,
    fingerprint := "S" }

/-- part_000 state with one established session `"S"` owned by open
connection 1. -/
def stW : PSt :=
  { pSt0 with active := [("S", recW)], conns := [(1, true)],
              connSession := [(1, "S")], fsPaths := ["sessions/S"], now := 5 }

/-- part_000 state with session `"S"` still initializing: placeholder record
and a fresh guard entry. -/
def stP : PSt :=
  { stW with active := [("S", recP)], guard := [("S", 0)] }

/-- part_000 state where connection 1 bound session id `"S"` but the record
is gone (a failed initialization already unwound it). -/
def stGone : PSt :=
  { pSt0 with conns := [(1, true)], connSession := [(1, "S")] }

/-- server.js state with one established session and a stale guard entry. -/
def sjStW : SjSt :=
  { sjSt0 with active := [("S", recW)], guard := ["S"], conns := [(1, true)] }

/-- Backing `client.logout()` throws. -/
def oNoLogout : Oracle := { oAll with logoutOk := false }

/-- `client.sendText` throws. -/
def oNoSend : Oracle := { oAll with sendOk := false }

/-- `browser.close()` throws during defensive cleanup. -/
def oNoBrowser : Oracle := { oAll with browserCloseOk := false }

/-!
## C1 — logout and the registry
-/

/-- C1, counterexample: when the backing `client.logout()` throws, the
`logout` handler surfaces a `logout-error` envelope, but — contrary to the
claim — the registry still holds the record for the id and the storage path
still exists after `logoutSession` returns: the throw propagates out of
`logoutSession` before the deletions run. -/
theorem c1_logout_failure_keeps_record :
    mapGet (logoutBranch stW 1 oNoLogout).active "S" = some recW ∧
    "sessions/S" ∈ (logoutBranch stW 1 oNoLogout).fsPaths ∧
    (logoutBranch stW 1 oNoLogout).out =
      [(1, Envelope.logoutError "logout failed")] := by
  decide

/-- `logoutSession` either throws with the state untouched, or succeeds
having deleted the registry entry and the guard entry, with a filesystem no
longer containing the record's storage path. -/
theorem logoutCore_cases (st : PSt) (S : SessionId) (o : Oracle)
    (s : SessionRec) (hrec : mapGet st.active S = some s) :
    (∃ e, logoutCore st S o = (st, some e)) ∨
    ∃ fs, logoutCore st S o =
        ({ st with fsPaths := fs, active := mapDel st.active S,
                   guard := mapDel st.guard S }, none) ∧
      ∀ p, s.sessionPath = some p → p ∉ fs := by
  have hpath :
      (∃ e, logoutCore st S o = (st, some e)) ∨
        ∃ fs, logoutCore st S o =
            ({ st with fsPaths := fs, active := mapDel st.active S,
                       guard := mapDel st.guard S }, none) ∧
          ∀ p, s.sessionPath = some p → p ∉ fs := by
    cases hcl : s.client with
    | some k =>
      by_cases hlo : o.logoutOk = false
      · exact Or.inl ⟨"logout failed", by simp [logoutCore, hrec, hcl, hlo]⟩
      · by_cases hco : o.closeOk = false
        · exact Or.inl ⟨"close failed",
            by simp [logoutCore, hrec, hcl, hlo, hco]⟩
        · cases hsp : s.sessionPath with
          | none =>
            refine Or.inr ⟨st.fsPaths, ?_, by simp [hsp]⟩
            simp [logoutCore, hrec, hcl, hlo, hco, hsp]
          | some p =>
            by_cases hin : p ∈ st.fsPaths
            · by_cases hrm : o.rmOk = true
              · refine Or.inr ⟨st.fsPaths.filter (fun q => q ≠ p), ?_, ?_⟩
                · simp [logoutCore, hrec, hcl, hlo, hco, hsp, hin, hrm]
                · intro q hq
                  cases hq
                  simp [List.mem_filter]
              · exact Or.inl ⟨"rm failed",
                  by simp [logoutCore, hrec, hcl, hlo, hco, hsp, hin, hrm]⟩
            · refine Or.inr ⟨st.fsPaths, ?_, ?_⟩
              · simp [logoutCore, hrec, hcl, hsp, hin, hlo, hco]
              · intro q hq
                cases hq
                exact hin
    | none =>
      cases hsp : s.sessionPath with
      | none =>
        refine Or.inr ⟨st.fsPaths, ?_, by simp [hsp]⟩
        simp [logoutCore, hrec, hcl, hsp]
      | some p =>
        by_cases hin : p ∈ st.fsPaths
        · by_cases hrm : o.rmOk = true
          · refine Or.inr ⟨st.fsPaths.filter (fun q => q ≠ p), ?_, ?_⟩
            · simp [logoutCore, hrec, hcl, hsp, hin, hrm]
            · intro q hq
              cases hq
              simp [List.mem_filter]
          · exact Or.inl ⟨"rm failed",
              by simp [logoutCore, hrec, hcl, hsp, hin, hrm]⟩
        · refine Or.inr ⟨st.fsPaths, ?_, ?_⟩
          · simp [logoutCore, hrec, hcl, hsp, hin]
          · intro q hq
            cases hq
            exact hin
  exact hpath

/-- C1, amended: after a **successful** `logout(id)`, the registry holds no
record for `id`, the guard entry is gone and the storage path is removed,
and `logged-out` is sent; when backing logout/close (or the storage removal)
throws, the failure is surfaced as a `logout-error` envelope and the local
state — registry record, guard entry, storage path — is left unchanged. -/
theorem c1_logout_amended (st : PSt) (S : SessionId) (s : SessionRec)
    (c : ConnId) (o : Oracle)
    (hrec : mapGet st.active S = some s)
    (hconn : mapGet st.connSession c = some S) :
    ((logoutCore st S o).2 = none →
      mapGet (logoutCore st S o).1.active S = none ∧
      mapGet (logoutCore st S o).1.guard S = none ∧
      (∀ p, s.sessionPath = some p → p ∉ (logoutCore st S o).1.fsPaths) ∧
      (logoutBranch st c o).out =
        (logoutCore st S o).1.out ++ [(c, Envelope.loggedOut)]) ∧
    (∀ e, (logoutCore st S o).2 = some e →
      (logoutCore st S o).1 = st ∧
      (logoutBranch st c o).out = st.out ++ [(c, Envelope.logoutError e)]) := by
  have hbr : logoutBranch st c o =
      (match (logoutCore st S o).2 with
       | none =>
         { (logoutCore st S o).1 with
             out := (logoutCore st S o).1.out ++ [(c, Envelope.loggedOut)],
             delayedGuardDel :=
               (logoutCore st S o).1.delayedGuardDel ++ [S] }
       | some e =>
         { (logoutCore st S o).1 with
             out := (logoutCore st S o).1.out ++
               [(c, Envelope.logoutError e)] }) := by
    simp only [logoutBranch, hconn]
  rcases logoutCore_cases st S o s hrec with ⟨e, hca⟩ | ⟨fs, hca, hfs⟩
  · constructor
    · intro hok
      rw [hca] at hok
      simp at hok
    · intro e' he'
      rw [hca] at he'
      simp at he'
      subst he'
      rw [hbr, hca]
      exact ⟨rfl, rfl⟩
  · constructor
    · intro _
      rw [hca]
      refine ⟨mapGet_mapDel_self _ _, mapGet_mapDel_self _ _, hfs, ?_⟩
      rw [hbr, hca]
    · intro e he
      rw [hca] at he
      simp at he

/-- C1, witness: at the concrete fixture, a fully-successful logout leaves
no record, and a logout whose backing call throws leaves the state
untouched. -/
theorem c1_logout_amended_witness :
    mapGet (logoutCore stW "S" oAll).1.active "S" = none ∧
    (logoutCore stW "S" oNoLogout).1 = stW := by
  constructor
  · exact ((c1_logout_amended stW "S" recW 1 oAll (by decide)
      (by decide)).1 (by decide)).1
  · exact ((c1_logout_amended stW "S" recW 1 oNoLogout (by decide)
      (by decide)).2 "logout failed" (by decide)).1

/-!
## C2 — the no-client-implies-pending-init invariant
-/

/-- Deleting an id from both the registry and the guard preserves the
invariant for association lists. -/
theorem invariant_del (a : List (SessionId × SessionRec))
    (g : List (SessionId × Time)) (S : SessionId)
    (h : a.all (fun pr => pr.2.client.isSome || (mapGet g pr.1).isSome)
          = true) :
    (mapDel a S).all
      (fun pr => pr.2.client.isSome || (mapGet (mapDel g S) pr.1).isSome)
      = true := by
  rw [List.all_eq_true] at h ⊢
  intro pr hpr
  obtain ⟨hin, hne⟩ := mem_mapDel hpr
  have hh := h pr hin
  rw [mapGet_mapDel_ne _ _ _ hne]
  exact hh

/-- C2, counterexample: on the server.js variant, a connection opens, sends
`init` (placeholder record written, guard entry added, creation suspended at
`wppconnect.create`), then closes.  The close handler deletes only the guard
entry, so the reachable resulting state holds a record with no client and no
pending initialization — the claimed invariant evaluates to `false`. -/
theorem c2_close_handler_invariant_violation :
    sjInvariantB (sjRun (fun s => s)
      [.connect 1, .initMsg 1 "S", .wsClose 1]) = false ∧
    (sjRun (fun s => s) [.connect 1, .initMsg 1 "S", .wsClose 1]).inFlight
      = [(1, "S")] := by
  decide

/-- C2, amended: the invariant is preserved by the part_000 close handler
(which deletes the record together with the guard entry when no client
exists), and the placeholder-creation step itself establishes both the
record and its guard entry in one atomic region; but the server.js close
handler deletes only the guard entry, so there a clientless record with no
pending initialization persists until the in-flight creation settles. -/
theorem c2_invariant_amended (hash : String → String) (st st2 : PSt)
    (c c2 : ConnId) (fp : String) (o : Oracle)
    (hinv : pInvariantB st = true)
    (h1 : mapGet st2.active (generateSessionId hash fp) = none)
    (h2 : mapGet st2.guard (generateSessionId hash fp) = none) :
    pInvariantB (pClose st c) = true ∧
    (mapGet (pInitHandler hash st2 c2 fp o).active
        (generateSessionId hash fp)).isSome = true ∧
    ((mapGet (pInitHandler hash st2 c2 fp o).active
        (generateSessionId hash fp)).bind (fun s => s.client)) = none ∧
    (mapGet (pInitHandler hash st2 c2 fp o).guard
        (generateSessionId hash fp)).isSome = true := by
  constructor
  · simp only [pClose]
    split
    · simpa [pInvariantB] using hinv
    · split
      · split
        · simpa [pInvariantB] using hinv
        · simp only [pInvariantB]
          exact invariant_del st.active st.guard _
            (by simpa only [pInvariantB] using hinv)
      · simp only [pInvariantB]
        exact invariant_del st.active st.guard _
          (by simpa only [pInvariantB] using hinv)
  · have hplaceholder :
        ∃ s, mapGet (pInitHandler hash st2 c2 fp o).active
            (generateSessionId hash fp) = some s ∧ s.client = none ∧
          (mapGet (pInitHandler hash st2 c2 fp o).guard
            (generateSessionId hash fp)).isSome = true := by
      unfold pInitHandler
      simp only [h1]
      unfold initGuardCheck
      simp only [h2]
      unfold startWhatsAppSession
      simp only [h2]
      unfold startTail sendToSessionP
      simp only [mapGet_mapSet_self]
      refine ⟨{ client := none, ws := c2, sessionPath := none,
                lastActivity := st2.now, fingerprint := fp }, ?_, rfl, ?_⟩ <;>
        (repeat' split) <;> simp [mapGet_mapSet_self]
    obtain ⟨s, hs, hcl, hg⟩ := hplaceholder
    exact ⟨by simp [hs], by simp [hs, hcl], hg⟩

/-- C2, witness: the part_000 close handler preserves the invariant at the
concrete established-session fixture, and a fresh `init` on the empty state
leaves a guard entry for the new placeholder. -/
theorem c2_invariant_amended_witness :
    pInvariantB (pClose stW 1) = true ∧
    (mapGet (pInitHandler (fun s => s) pSt0 1 "S" oAll).guard
      (generateSessionId (fun s => s) "S")).isSome = true := by
  have h := c2_invariant_amended (fun s => s) stW pSt0 1 1 "S" oAll
    (by decide) (by decide) (by decide)
  exact ⟨h.1, h.2.2.2⟩

/-!
## C3 — the init guard and concurrent creations
-/

/-- C3, counterexample: three connections send `init` with the same
fingerprint.  The first starts the backing creation.  The second hits the
reconnect branch, which re-points the record **and deletes the guard
entry** while the first creation is still awaited.  The third therefore
finds no guard entry and starts a second `wppconnect.create` — two creation
calls are in flight for the same identifier at once, refuting "at most one
backing-engine creation call is in flight at a time". -/
theorem c3_two_creations_in_flight :
    (pRun (fun s => s)
      [.connect 1, .connect 2, .connect 3,
       .inbound 1 (.parsed "init" "S" "" "") oAll,
       .inbound 2 (.parsed "init" "S" "" "") oAll,
       .inbound 3 (.parsed "init" "S" "" "") oAll]).inFlight
      = [(1, "S"), (3, "S")] := by
  decide

/-- C3, amended: while a guard entry for the identifier is present and not
stale and the record (if any) has no client yet, a further `init` never
starts another creation — it either re-points the record's connection with a
reconnect `status` or is rejected with the wait `error`; however the
reconnect path deletes the guard entry while the first creation is still in
flight, after which a later `init` can start a second concurrent
creation. -/
theorem c3_guard_blocks_second_creation (hash : String → String) (st : PSt)
    (c : ConnId) (fp : String) (o : Oracle) (t : Time)
    (hguard : mapGet st.guard (generateSessionId hash fp) = some t)
    (hfresh : st.now - t < 120000)
    (hnc : (mapGet st.active (generateSessionId hash fp)).bind
        (fun s => s.client) = none) :
    (pInitHandler hash st c fp o).inFlight = st.inFlight ∧
    ((pInitHandler hash st c fp o).out =
        st.out ++ [(c, Envelope.status "Reconnected to existing session")] ∨
     (pInitHandler hash st c fp o).out =
        st.out ++ [(c, Envelope.error
          "This session is already being initialized. Please wait.")]) := by
  unfold pInitHandler
  cases hac : mapGet st.active (generateSessionId hash fp) with
  | none =>
    simp only [hac]
    unfold initGuardCheck
    simp only [hguard, hac]
    exact ⟨trivial, Or.inr trivial⟩
  | some s =>
    rw [hac] at hnc
    simp only [Option.bind] at hnc
    simp only [hac, hnc]
    unfold initGuardCheck
    simp only [hguard, hac]
    by_cases hws : s.ws = c
    · simp only [hws, ne_eq, not_true_eq_false, if_false]
      exact ⟨trivial, Or.inr trivial⟩
    · simp only [ne_eq, hws, not_false_eq_true, if_true]
      refine ⟨?_, Or.inl ?_⟩ <;> split <;> rfl

/-- C3, witness: at the concrete initializing fixture (fresh guard entry,
placeholder record attached to connection 1), an `init` from connection 2
leaves the set of in-flight creations unchanged. -/
theorem c3_guard_blocks_second_creation_witness :
    (pInitHandler (fun s => s) stP 2 "S" oAll).inFlight = stP.inFlight :=
  (c3_guard_blocks_second_creation (fun s => s) stP 2 "S" oAll 0
    (by decide) (by decide) (by decide)).1

/-!
## C4 — the statusFind hook
-/

/-- C4, counterexample: the server.js `statusFind` hook, fired with the
terminal-success status `inChat` at a state whose guard holds the
identifier, pushes the `status` and `ready` envelopes but leaves the
init-guard entry in place, refuting "the init-guard entry for that
identifier is also cleared". -/
theorem c4_statusFind_guard_not_cleared :
    (statusFindSj sjStW "S" "inChat").guard = ["S"] ∧
    (statusFindSj sjStW "S" "inChat").out =
      [(1, Envelope.status "Status: inChat"),
       (1, Envelope.ready "WhatsApp connected successfully!")] := by
  decide

/-- C4, amended: in both variants the hook pushes a `status` envelope to the
owning connection and, on `inChat`/`qrReadSuccess`, also a `ready`
envelope; the init-guard entry is cleared only in the part_000 variant —
the server.js hook never touches the guard. -/
theorem c4_statusFind_amended (pst : PSt) (sst : SjSt) (S : SessionId)
    (s : SessionRec) (status : String)
    (hrec : mapGet pst.active S = some s)
    (hopen : connOpen pst s.ws = true) :
    ((status = "inChat" ∨ status = "qrReadSuccess") →
      (statusFindP pst S status).out = pst.out ++
        [(s.ws, Envelope.status ("Status: " ++ status)),
         (s.ws, Envelope.ready "WhatsApp connected successfully!")] ∧
      mapGet (statusFindP pst S status).guard S = none) ∧
    (¬(status = "inChat" ∨ status = "qrReadSuccess") →
      (statusFindP pst S status).out = pst.out ++
        [(s.ws, Envelope.status ("Status: " ++ status))] ∧
      (statusFindP pst S status).guard = pst.guard) ∧
    (statusFindSj sst S status).guard = sst.guard := by
  have hsend : ∀ (st' : PSt) (env : Envelope),
      mapGet st'.active S = some s → connOpen st' s.ws = true →
      sendToSessionP st' S env =
        { st' with out := st'.out ++ [(s.ws, env)] } := by
    intro st' env h1 h2
    unfold sendToSessionP
    simp [h1, h2]
  refine ⟨?_, ?_, ?_⟩
  · intro hterm
    simp only [statusFindP]
    rw [if_pos hterm, hsend pst _ hrec hopen]
    rw [hsend
      { pst with guard := mapDel pst.guard S,
                 out := pst.out ++
                   [(s.ws, Envelope.status ("Status: " ++ status))] }
      (Envelope.ready "WhatsApp connected successfully!") hrec hopen]
    exact ⟨by simp, by simp [mapGet_mapDel_self]⟩
  · intro hterm
    simp only [statusFindP]
    rw [if_neg hterm, hsend pst _ hrec hopen]
    exact ⟨rfl, rfl⟩
  · have hg : ∀ (x : SjSt) (env : Envelope),
        (sjSendToSession x S env).guard = x.guard := by
      intro x env
      unfold sjSendToSession
      split
      · split <;> rfl
      · rfl
    unfold statusFindSj
    split
    · rw [hg, hg]
    · rw [hg]

/-- C4, witness: at the initializing fixture the part_000 hook clears the
guard entry on `inChat`, while the server.js hook leaves its guard
untouched. -/
theorem c4_statusFind_amended_witness :
    mapGet (statusFindP stP "S" "inChat").guard "S" = none ∧
    (statusFindSj sjStW "S" "inChat").guard = sjStW.guard := by
  have h := c4_statusFind_amended stP sjStW "S" recP "inChat"
    (by decide) (by decide)
  exact ⟨(h.1 (Or.inl rfl)).2, h.2.2⟩

/-!
## C5 — the inbound-envelope fallback
-/

/-- C5, counterexample: a syntactically valid envelope with unrecognized
type `broadcast` leaves the server state completely unchanged — no error
envelope, no reply at all; the message is silently dropped, refuting "no
inbound message is silently dropped without a response". -/
theorem c5_unrecognized_type_dropped :
    pRun (fun s => s)
      [.connect 1, .inbound 1 (.parsed "broadcast" "" "" "") oAll] =
    pRun (fun s => s) [.connect 1] := by
  decide

/-- C5, amended: malformed JSON is answered with an `error` envelope echoing
the parse failure, but a well-formed envelope whose type is none of `init`,
`send-message`, `logout` produces no reply and no state change at all. -/
theorem c5_fallback_amended (hash : String → String) (st : PSt) (c : ConnId)
    (e ty fp ph bd : String) (o : Oracle)
    (h1 : ty ≠ "init") (h2 : ty ≠ "send-message") (h3 : ty ≠ "logout") :
    (wsMessageP hash st c (.malformed e) o).out =
      st.out ++ [(c, Envelope.error e)] ∧
    wsMessageP hash st c (.parsed ty fp ph bd) o = st := by
  constructor
  · rfl
  · simp [wsMessageP, h1, h2, h3]

/-- C5, witness: at the established fixture, a `broadcast`-typed envelope is
a complete no-op. -/
theorem c5_fallback_amended_witness :
    wsMessageP (fun s => s) stW 1 (.parsed "broadcast" "" "" "") oAll
      = stW :=
  (c5_fallback_amended (fun s => s) stW 1 "bad json" "broadcast" "" "" ""
    oAll (by decide) (by decide) (by decide)).2

/-!
## C6 — send-message / logout before a successful init
-/

/-- C6, counterexample: connection 1 sends `init` (binding the handler-local
session id), the backing creation fails (placeholder and guard unwound),
then connection 1 sends `send-message` — before any **successful** init.
The reply is a `message-error` envelope carrying "Session not found or
WhatsApp not connected", not the claimed `error` envelope "Session not
initialized": the not-initialized guard only checks that the session id
variable is bound, which happens at the start of the init branch whether or
not the init succeeds. -/
theorem c6_send_after_failed_init :
    (pRun (fun s => s)
      [.connect 1, .inbound 1 (.parsed "init" "S" "" "") oAll,
       .createDone 1 "S" false,
       .inbound 1 (.parsed "send-message" "" "123" "hi") oAll]).out.getLast?
      = some (1, Envelope.messageError
          "Session not found or WhatsApp not connected" "123") := by
  decide

/-- C6, amended: a `send-message` or `logout` on a connection that has never
sent `init` is rejected with `error "Session not initialized"`; after an
`init` whose creation failed, the session id stays bound and the record is
gone, so `send-message` is answered with a `message-error` envelope and
`logout` with a `logout-error` envelope — in every case the connection gets
a reply, never a crash or a silent drop. -/
theorem c6_not_initialized_amended (st : PSt) (c : ConnId) (S : SessionId)
    (ph tx : String) (o : Oracle) :
    (mapGet st.connSession c = none →
      (sendBranch st c ph tx o).out =
        st.out ++ [(c, Envelope.error "Session not initialized")] ∧
      (logoutBranch st c o).out =
        st.out ++ [(c, Envelope.error "Session not initialized")]) ∧
    (mapGet st.connSession c = some S → mapGet st.active S = none →
      (sendBranch st c ph tx o).out = st.out ++
        [(c, Envelope.messageError
            "Session not found or WhatsApp not connected" ph)] ∧
      (logoutBranch st c o).out = st.out ++
        [(c, Envelope.logoutError "Session not found")]) := by
  constructor
  · intro hnone
    constructor
    · simp [sendBranch, hnone]
    · simp [logoutBranch, hnone]
  · intro hsome hgone
    constructor
    · simp [sendBranch, hsome, sendMessageCore, hgone]
    · simp [logoutBranch, hsome, logoutCore, hgone]

/-- C6, witness: on the empty state a send is rejected with "Session not
initialized"; at the failed-init fixture (id bound, record gone) the reply
is the `message-error` envelope. -/
theorem c6_not_initialized_amended_witness :
    (sendBranch pSt0 1 "123" "hi" oAll).out =
      [(1, Envelope.error "Session not initialized")] ∧
    (sendBranch stGone 1 "123" "hi" oAll).out =
      [(1, Envelope.messageError
          "Session not found or WhatsApp not connected" "123")] := by
  constructor
  · exact ((c6_not_initialized_amended pSt0 1 "S" "123" "hi" oAll).1
      (by decide)).1
  · exact ((c6_not_initialized_amended stGone 1 "S" "123" "hi" oAll).2
      (by decide) (by decide)).1

/-!
## C7 / C8 — cleanup idempotence and step ordering
-/

/-- `cleanupSession` on an absent record is a pure no-op with no effects. -/
theorem cleanupCore_none (st : PSt) (S : SessionId) (o : Oracle)
    (h : mapGet st.active S = none) : cleanupCore st S o = (st, []) := by
  unfold cleanupCore
  rw [h]

/-- After any `cleanupSession`, the registry has no record for the id. -/
theorem cleanupCore_active_none (st : PSt) (S : SessionId) (o : Oracle) :
    mapGet (cleanupCore st S o).1.active S = none := by
  unfold cleanupCore
  cases h : mapGet st.active S with
  | none => exact h
  | some s => simp [mapGet_mapDel_self]

/-- C7, confirmed: `cleanup(id)` is idempotent — the second of two
consecutive calls finds no record, raises nothing, performs no effects, and
leaves the state exactly as the first call left it. -/
theorem c7_cleanup_idempotent (st : PSt) (S : SessionId) (o1 o2 : Oracle) :
    cleanupCore (cleanupCore st S o1).1 S o2 = ((cleanupCore st S o1).1, []) :=
  cleanupCore_none _ _ _ (cleanupCore_active_none st S o1)

/-- C8, confirmed: for a record with a client and an existing storage path,
`cleanupSession` performs, for **every** outcome of the fallible calls, the
client-teardown attempts first, then the storage-path removal attempt, then
the registry deletion, then the guard deletion — a throw from one step never
suppresses the later steps — and afterwards the registry and guard hold
nothing for the id, and on a successful removal the path is gone. -/
theorem c8_cleanup_order (st : PSt) (S : SessionId) (s : SessionRec)
    (k : Nat) (p : String) (o : Oracle)
    (hrec : mapGet st.active S = some s) (hcl : s.client = some k)
    (hsp : s.sessionPath = some p) (hin : p ∈ st.fsPaths)
    (hprof : (p ++ "/browser-profile") ∉ st.fsPaths) :
    (cleanupCore st S o).2 =
      closeFx s.client o ++ [Effect.rmPath] ++
        [Effect.regDelete, Effect.guardDelete] ∧
    mapGet (cleanupCore st S o).1.active S = none ∧
    mapGet (cleanupCore st S o).1.guard S = none ∧
    (o.rmPathOk = true → p ∉ (cleanupCore st S o).1.fsPaths) := by
  have hrm : rmStep st.fsPaths s.sessionPath o =
      (if o.rmPathOk = true then st.fsPaths.filter (fun q => q ≠ p)
       else st.fsPaths, [Effect.rmPath]) := by
    unfold rmStep
    rw [hsp]
    simp only [if_pos hin, if_neg hprof]
    by_cases hok : o.rmPathOk = true <;> simp [hok]
  refine ⟨?_, cleanupCore_active_none st S o, ?_, ?_⟩
  · unfold cleanupCore
    rw [hrec]
    simp [hrm]
  · unfold cleanupCore
    rw [hrec]
    simp [mapGet_mapDel_self]
  · intro hok
    unfold cleanupCore
    rw [hrec]
    simp only [hrm, hok, if_true]
    simp [List.mem_filter]

/-- C8, witness: at the established fixture with a failing
`browser.close()`, the trace still ends with the path removal, the registry
deletion and the guard deletion, in order. -/
theorem c8_cleanup_order_witness :
    (cleanupCore stW "S" oNoBrowser).2 =
      closeFx recW.client oNoBrowser ++ [Effect.rmPath] ++
        [Effect.regDelete, Effect.guardDelete] :=
  (c8_cleanup_order stW "S" recW 0 "sessions/S" oNoBrowser (by decide)
    (by decide) (by decide) (by decide) (by decide)).1

/-!
## C9 / C10 — sends
-/

/-- C9, confirmed: when `client.sendText` throws, the `send-message` branch
replies with a `message-error` envelope and the session survives: the record
is still registered with the same client and storage path (only
`lastActivity` was refreshed), and the filesystem is untouched. -/
theorem c9_send_failure_keeps_session (st : PSt) (S : SessionId)
    (s : SessionRec) (k : Nat) (c : ConnId) (ph tx : String) (o : Oracle)
    (hrec : mapGet st.active S = some s) (hcl : s.client = some k)
    (hconn : mapGet st.connSession c = some S) (hfail : o.sendOk = false) :
    (sendBranch st c ph tx o).out =
      st.out ++ [(c, Envelope.messageError "send failed" ph)] ∧
    mapGet (sendBranch st c ph tx o).active S =
      some { s with lastActivity := st.now } ∧
    (sendBranch st c ph tx o).fsPaths = st.fsPaths := by
  have hcore : sendMessageCore st S ph tx o =
      ({ st with
          active := mapSet st.active S { s with lastActivity := st.now },
          fx := st.fx ++ [Effect.sendText
            (if strIncludes ph "@c.us" then ph else ph ++ "@c.us") tx] },
        some "send failed") := by
    unfold sendMessageCore
    simp [hrec, hcl, hfail]
  unfold sendBranch
  rw [hconn]
  simp [hcore, mapGet_mapSet_self]

/-- C9, witness: at the established fixture with a failing send, the reply
is the `message-error` envelope and the record survives. -/
theorem c9_send_failure_keeps_session_witness :
    (sendBranch stW 1 "123" "hi" oNoSend).out =
      [(1, Envelope.messageError "send failed" "123")] :=
  (c9_send_failure_keeps_session stW "S" recW 0 1 "123" "hi" oNoSend
    (by decide) (by decide) (by decide) (by decide)).1

/-- C10, confirmed: for every send attempt — successful or not — the target
handed to `client.sendText` is the phone itself when it already contains
`@c.us` and the phone with `@c.us` appended otherwise, and `lastActivity`
is refreshed before the send, so even a failed send updates the record's
activity timestamp. -/
theorem c10_send_target_and_activity (st : PSt) (S : SessionId)
    (s : SessionRec) (k : Nat) (c : ConnId) (ph tx : String) (o : Oracle)
    (hrec : mapGet st.active S = some s) (hcl : s.client = some k)
    (hconn : mapGet st.connSession c = some S) :
    (strIncludes ph "@c.us" = true →
      (sendBranch st c ph tx o).fx = st.fx ++ [Effect.sendText ph tx]) ∧
    (strIncludes ph "@c.us" = false →
      (sendBranch st c ph tx o).fx =
        st.fx ++ [Effect.sendText (ph ++ "@c.us") tx]) ∧
    mapGet (sendBranch st c ph tx o).active S =
      some { s with lastActivity := st.now } := by
  have hcore : sendMessageCore st S ph tx o =
      ({ st with
          active := mapSet st.active S { s with lastActivity := st.now },
          fx := st.fx ++ [Effect.sendText
            (if strIncludes ph "@c.us" then ph else ph ++ "@c.us") tx] },
        if o.sendOk then none else some "send failed") := by
    unfold sendMessageCore
    by_cases hok : o.sendOk = true <;> simp [hrec, hcl, hok]
  unfold sendBranch
  rw [hconn]
  refine ⟨?_, ?_, ?_⟩
  · intro hinc
    cases hok : o.sendOk <;> simp [hcore, hok, hinc]
  · intro hinc
    cases hok : o.sendOk <;> simp [hcore, hok, hinc]
  · cases hok : o.sendOk <;> simp [hcore, hok, mapGet_mapSet_self]

/-- C10, witness: at the established fixture, a send to "123" attempts
`sendText` with target "123@c.us" even though the send fails, and the
activity timestamp becomes the current time. -/
theorem c10_send_target_and_activity_witness :
    (sendBranch stW 1 "123" "hi" oNoSend).fx =
      [Effect.sendText "123@c.us" "hi"] :=
  (c10_send_target_and_activity stW "S" recW 0 1 "123" "hi" oNoSend
    (by decide) (by decide) (by decide)).2.1 (by decide)

end WABackend
